import Mathlib

/-
Verification development for the Obsidian-Google-Drive sync plugin.

Sources embedded:
  src/helpers/push.ts      (push engine, early version; called pushV1 here)
  src/unnamed/part_000     (helpers/drive.ts: query builder, pagination, ids)
  src/unnamed/part_001     (push engine with confirmation modal; pushV2 here)

Modelling conventions:
  - JavaScript objects keyed by strings become association lists preserving
    insertion order; property assignment is an upsert keeping the position
    of an existing key, property deletion removes the entry with that key.
  - async/await control flow is sequentialized.  The helper batchAsyncs is
    imported from helpers/drive in both push versions but is not present
    under src; modelled from the spec (bounded-concurrency waves, failures
    isolated per action) as sequential execution in list order, which is one
    legitimate linearization and is all the settled claims depend on.
  - every remote HTTP call is an oracle field of an environment structure;
    the oracle decides success or failure, and each call is also recorded in
    an explicit call trace so that claims about which remote calls were
    issued can be stated.
  - machine integers do not occur; all counts are Nat.
-/

namespace GDrive

/-- Pending operation kinds stored in the operation log, from the
`operations: map<path, "create"|"delete"|"modify">` settings field. -/
inductive Op
  | create
  | delete
  | modify
deriving DecidableEq, BEq, Repr

/-- The slice of the Drive file metadata (FileMetadata in part_000) that the
claims touch: the remote id, the properties.path marker, the
properties.obsidian marker used to tag the vault root, and the trashed flag
used by the fixed query filter.  The remaining fields (name, description,
mimeType, starred, modifiedTime) do not influence any control flow settled
here. -/
structure FileMeta where
  id : String
  pathProp : String
  obsidianProp : Option String
  trashed : Bool
deriving DecidableEq, Repr

/-- Kind of a vault entry, standing for TFolder/TFile results of
vault.getAbstractFileByPath; none models a path with no vault object. -/
inductive VKind
  | folder
  | file
deriving DecidableEq, BEq, Repr

/-- Local vault lookup, standing for the Obsidian vault collaborator. -/
def Vault : Type := String → Option VKind

/-- Persisted settings: the operation log and the id-to-path index, from the
settings object of the plugin. -/
structure Settings where
  operations : List (String × Op)
  driveIdToPath : List (String × String)
deriving DecidableEq, Repr

/-- Plugin state around a sync: the single-flight syncing flag plus the
persisted settings. -/
structure PState where
  syncing : Bool
  settings : Settings
deriving DecidableEq, Repr

/-- Association list lookup, modelling JavaScript object property read. -/
def lookupA (l : List (String × String)) (k : String) : Option String :=
  (l.find? (fun e => e.1 == k)).map Prod.snd

/-- Association list upsert, modelling JavaScript property assignment: an
existing key keeps its position, a new key is appended. -/
def setA (l : List (String × String)) (k v : String) : List (String × String) :=
  if l.any (fun e => e.1 == k) then
    l.map (fun e => if e.1 == k then (k, v) else e)
  else
    l ++ [(k, v)]

/-- Inversion of the id-to-path index into a path-to-id object, modelling
Object.fromEntries(Object.entries(driveIdToPath).map(([id, path]) =>
[path, id])). -/
def invert (l : List (String × String)) : List (String × String) :=
  l.map (fun e => (e.2, e.1))

/-- Splits a character list on the slash character, mirroring the JavaScript
String.split on a one-character separator. -/
def splitSlash (cs : List Char) : List (List Char) :=
  cs.foldr
    (fun c acc =>
      if c = '/' then [] :: acc
      else
        match acc with
        | [] => [[c]]
        | g :: gs => (c :: g) :: gs)
    [[]]

/-- Path segments of a vault path, as in path.split("/"). -/
def pathSegs (p : String) : List String :=
  (splitSlash p.data).map (fun g => String.mk g)

/-- Number of slash-delimited segments, as in path.split("/").length. -/
def pathDepth (p : String) : Nat :=
  (pathSegs p).length

/-- Last path segment, the display name of a vault entry. -/
def baseName (p : String) : String :=
  (pathSegs p).getLastD ""

/-- Parent path of a vault entry, or none for a top-level path.  In Obsidian
a top-level entry has the vault root (path "/") as parent and the index never
holds an entry for "/", so the effective parent id resolved from the index is
absent either way; the model folds the two cases together. -/
def parentPath (p : String) : Option String :=
  let segs := pathSegs p
  if segs.length ≤ 1 then none
  else some (String.intercalate "/" segs.dropLast)

section Pagination

/-- One listing response: a page of files plus the continuation token, from
paginateFiles in part_000.  Tokens are modelled as indices into the list of
pages the server would serve for the query. -/
def pageAt (pages : List (List FileMeta)) (tok : Nat) : Option (List FileMeta) :=
  pages.get? tok

/-- The searchFiles accumulation loop of part_000 lines 153-165: fetch a
page; on transport failure give up with no result; otherwise append the
files and follow nextPageToken.  The JavaScript while loop terminates
because every response advances the token through the finite page list; the
fuel argument, instantiated with pages.length, realizes that bound (the loop
runs at most once per page). -/
def searchFrom (pages : List (List FileMeta)) (failAt : Nat → Bool) :
    Nat → Nat → List FileMeta → Option (List FileMeta)
  | 0, _, _ => none
  | Nat.succ fuel, tok, acc =>
    if failAt tok then none
    else
      match pageAt pages tok with
      | none => none
      | some fs =>
        if tok + 1 < pages.length then
          searchFrom pages failAt fuel (tok + 1) (acc ++ fs)
        else
          some (acc ++ fs)

/-- Predicate for the default searchFiles filter of part_000 lines 169-171:
keep files whose properties.obsidian marker is not the vault-root tag. -/
def notVaultRoot (f : FileMeta) : Bool :=
  !(f.obsidianProp == some "vault")

/-- searchFiles of part_000 lines 143-172: paginate from the first page to
exhaustion, then either return all files (includeObsidian) or filter out the
synchronization root container. -/
def searchFilesP (pages : List (List FileMeta)) (failAt : Nat → Bool)
    (includeObsidian : Bool) : Option (List FileMeta) :=
  match searchFrom pages failAt pages.length 0 [] with
  | none => none
  | some fs => some (if includeObsidian then fs else fs.filter notVaultRoot)

end Pagination

section QueryBuilder

/-- String predicate of part_000: a plain string, a contains-match, or a
not-equal match. -/
inductive StringSearch
  | exact (s : String)
  | has (s : String)
  | ne (s : String)
deriving DecidableEq, Repr

/-- Modified-time comparison of part_000. -/
inductive DateCmp
  | eq (s : String)
  | gt (s : String)
  | lt (s : String)
deriving DecidableEq, Repr

/-- QueryMatch of part_000 lines 19-27.  A field that is undefined in the
JavaScript object is the empty list (for the fields that may also be arrays)
or none.  Object.entries is modelled with the declared field order. -/
structure QueryMatch where
  name : List StringSearch := []
  mimeType : List StringSearch := []
  parent : Option String := none
  starred : Option Bool := none
  query : Option String := none
  properties : Option (List (String × String)) := none
  modifiedTime : Option DateCmp := none
deriving DecidableEq, Repr

/-- One flattened [key, value] entry of a QueryMatch, produced by the
flatMap over Object.entries in getQuery (part_000 lines 62-68). -/
inductive QEntry
  | name (v : StringSearch)
  | mimeType (v : StringSearch)
  | parent (v : String)
  | starred (v : Bool)
  | query (v : String)
  | properties (v : List (String × String))
  | modifiedTime (v : DateCmp)
deriving DecidableEq, Repr

/-- queryHandlers.name of part_000: note the inner double quotes in the
contains case. -/
def nameClause : StringSearch → String
  | StringSearch.exact s => "name=\x27" ++ s ++ "\x27"
  | StringSearch.has s => "name contains \x27\"" ++ s ++ "\"\x27"
  | StringSearch.ne s => "name != \x27" ++ s ++ "\x27"

/-- queryHandlers.mimeType of part_000. -/
def mimeClause : StringSearch → String
  | StringSearch.exact s => "mimeType=\x27" ++ s ++ "\x27"
  | StringSearch.has s => "mimeType contains \x27" ++ s ++ "\x27"
  | StringSearch.ne s => "mimeType != \x27" ++ s ++ "\x27"

/-- queryHandlers.parent of part_000. -/
def parentClause (p : String) : String :=
  "\x27" ++ p ++ "\x27 in parents"

/-- queryHandlers.starred of part_000: JavaScript template interpolation of
a boolean. -/
def starredClause (b : Bool) : String :=
  "starred=" ++ (if b then "true" else "false")

/-- queryHandlers.query of part_000 (full-text search). -/
def fullTextClause (q : String) : String :=
  "fullText contains \x27" ++ q ++ "\x27"

/-- One properties-has clause of queryHandlers.properties. -/
def propClause (kv : String × String) : String :=
  "properties has \x7b key=\x27" ++ kv.1 ++ "\x27 and value=\x27" ++ kv.2 ++
    "\x27 \x7d"

/-- queryHandlers.properties returns an array of clauses; the enclosing
Array.prototype.join stringifies that array element with commas, so the
clauses of one properties record end up comma-separated inside a single
conjunct. -/
def propertiesClause (ps : List (String × String)) : String :=
  String.intercalate "," (ps.map propClause)

/-- queryHandlers.modifiedTime of part_000 (spaces around the operator, as
in the source template literals). -/
def dateClause : DateCmp → String
  | DateCmp.eq s => "modifiedTime = \x27" ++ s ++ "\x27"
  | DateCmp.gt s => "modifiedTime > \x27" ++ s ++ "\x27"
  | DateCmp.lt s => "modifiedTime < \x27" ++ s ++ "\x27"

/-- The flattened entry list of one match: undefined fields contribute
nothing, array-valued fields one entry per element, the properties record a
single entry (part_000 lines 62-68). -/
def entriesOf (m : QueryMatch) : List QEntry :=
  m.name.map QEntry.name ++
    m.mimeType.map QEntry.mimeType ++
    (m.parent.map QEntry.parent).toList ++
    (m.starred.map QEntry.starred).toList ++
    (m.query.map QEntry.query).toList ++
    (m.properties.map QEntry.properties).toList ++
    (m.modifiedTime.map QEntry.modifiedTime).toList

/-- Dispatch to the per-key query handler (part_000 lines 69-72). -/
def handleEntry : QEntry → String
  | QEntry.name v => nameClause v
  | QEntry.mimeType v => mimeClause v
  | QEntry.parent v => parentClause v
  | QEntry.starred v => starredClause v
  | QEntry.query v => fullTextClause v
  | QEntry.properties v => propertiesClause v
  | QEntry.modifiedTime v => dateClause v

/-- Parenthesized conjunction of the handled entries of one match. -/
def matchClause (m : QueryMatch) : String :=
  "(" ++ String.intercalate " and " ((entriesOf m).map handleEntry) ++ ")"

/-- The query string before URI encoding: the or-joined match clauses,
parenthesized and conjoined with the fixed trashed filter (part_000 lines
60-75). -/
def rawQuery (ms : List QueryMatch) : String :=
  "(" ++ String.intercalate " or " (ms.map matchClause) ++
    ") and trashed=false"

/-- Uppercase hexadecimal digit. -/
def hexDigit (n : Nat) : Char :=
  (['0', '1', '2', '3', '4', '5', '6', '7', '8', '9',
    'A', 'B', 'C', 'D', 'E', 'F']).getD n '0'

/-- Characters left unescaped by the JavaScript encodeURIComponent builtin. -/
def isUnreservedURI (c : Char) : Bool :=
  c.isAlpha || c.isDigit || c = '-' || c = '_' || c = '.' || c = '!' ||
    c = '~' || c = '*' || c = '\x27' || c = '(' || c = ')'

/-- UTF-8 bytes of a character. -/
def utf8Bytes (c : Char) : List Nat :=
  let n := c.toNat
  if n < 128 then [n]
  else if n < 2048 then [192 + n / 64, 128 + n % 64]
  else if n < 65536 then [224 + n / 4096, 128 + (n / 64) % 64, 128 + n % 64]
  else [240 + n / 262144, 128 + (n / 4096) % 64, 128 + (n / 64) % 64,
    128 + n % 64]

/-- Percent-encoding of one byte. -/
def pctByte (b : Nat) : String :=
  String.mk ['%', hexDigit (b / 16), hexDigit (b % 16)]

/-- Model of the JavaScript encodeURIComponent builtin: unreserved
characters pass through, every other character is percent-encoded bytewise
in UTF-8. -/
def encodeURIComponent (s : String) : String :=
  String.join (s.data.map (fun c =>
    if isUnreservedURI c then String.singleton c
    else String.join ((utf8Bytes c).map pctByte)))

/-- getQuery of part_000 lines 58-76: the raw query wrapped in
encodeURIComponent. -/
def getQuery (ms : List QueryMatch) : String :=
  encodeURIComponent (rawQuery ms)

/-- Spec-side description of the conjuncts contributed by the fields of one
match, written field by field from the natural-language description of the
Query Match data model. -/
def specFieldClauses (m : QueryMatch) : List String :=
  m.name.map nameClause ++
    m.mimeType.map mimeClause ++
    (m.parent.map parentClause).toList ++
    (m.starred.map starredClause).toList ++
    (m.query.map fullTextClause).toList ++
    (m.properties.map propertiesClause).toList ++
    (m.modifiedTime.map dateClause).toList

end QueryBuilder

section DriveClient

/-- Server-side evaluation of the OR of properties-path matches that
idsFromPaths sends (part_000 lines 329-332), modelled from the external
remote API contract: a non-trashed file matches when its properties.path
marker equals one of the requested paths.  The default searchFiles filter
then drops the vault-root container. -/
def searchFlat (db : List FileMeta) (searchFails : Bool)
    (paths : List String) : Option (List FileMeta) :=
  if searchFails then none
  else
    some (((db.filter (fun f => !f.trashed && paths.contains f.pathProp)).filter
      notVaultRoot))

/-- idsFromPaths of part_000 lines 329-335: absent exactly when the search
is absent; otherwise the id and properties.path of every file the search
returned. -/
def idsFromPaths (db : List FileMeta) (searchFails : Bool)
    (paths : List String) : Option (List (String × String)) :=
  (searchFlat db searchFails paths).map
    (fun fs => fs.map (fun f => (f.id, f.pathProp)))

/-- Oracle environment for the root-folder resolution of part_000:
the result of the obsidian=vault search (absent on transport failure),
and the ids the three POST requests would return (absent on failure). -/
structure EnvRoot where
  rootSearch : Option (List FileMeta)
  createRootId : Option String
  postFolderId : Option String
  postUploadId : Option String

/-- Remote calls issued during root resolution and creation. -/
inductive DriveCall
  | searchRoot
  | postRoot (name : String) (props : List (String × String))
  | postFolder (name : String) (parent : String)
  | postUpload (name : String) (parent : String)
deriving DecidableEq, Repr

/-- getRootFolderId of part_000 lines 174-197: search for a file tagged
obsidian=vault (including the root container itself); on transport failure
give up; if none exists, create a folder named Obsidian carrying the tag and
return its id; otherwise return the id of the first match. -/
def getRootFolderId (env : EnvRoot) : Option String × List DriveCall :=
  match env.rootSearch with
  | none => (none, [DriveCall.searchRoot])
  | some [] =>
    (env.createRootId,
      [DriveCall.searchRoot, DriveCall.postRoot "Obsidian" [("obsidian", "vault")]])
  | some (f :: _) => (some f.id, [DriveCall.searchRoot])

/-- createFolder of part_000 lines 199-229: with no parent supplied, first
resolve the vault root and fail without posting when that resolution fails;
then post the folder, whose request may itself fail. -/
def createFolder (env : EnvRoot) (name : String) (parent : Option String) :
    Option String × List DriveCall :=
  match parent with
  | some p => (env.postFolderId, [DriveCall.postFolder name p])
  | none =>
    match getRootFolderId env with
    | (none, tr) => (none, tr)
    | (some r, tr) => (env.postFolderId, tr ++ [DriveCall.postFolder name r])

/-- uploadFile of part_000 lines 231-269, restricted to the parent
resolution and the upload POST the claims are about. -/
def uploadFile (env : EnvRoot) (name : String) (parent : Option String) :
    Option String × List DriveCall :=
  match parent with
  | some p => (env.postUploadId, [DriveCall.postUpload name p])
  | none =>
    match getRootFolderId env with
    | (none, tr) => (none, tr)
    | (some r, tr) => (env.postUploadId, tr ++ [DriveCall.postUpload name r])

end DriveClient

section PushEngine

/-- Notice text shown when fetching remote files fails. -/
def fetchErrMsg : String := "An error occurred fetching Google Drive files."

/-- Notice text shown when the grouped delete fails. -/
def deleteErrMsg : String := "An error occurred deleting Google Drive files."

/-- Notice text shown when a folder creation fails. -/
def folderErrMsg : String := "An error occurred creating Google Drive folders."

/-- Notice text shown when a file creation fails. -/
def createErrMsg : String := "An error occurred creating Google Drive files."

/-- Notice text shown when a content update fails. -/
def modifyErrMsg : String := "An error occurred modifying Google Drive files."

/-- Notice text shown when a config file creation fails (part_001). -/
def configErrMsg : String := "An error occurred creating Google Drive config files."

/-- Terminal success notice. -/
def completeMsg : String := "Sync complete!"

/-- Terminal notice of src/helpers/push.ts lines 139-144 when the silent
pull reported that remote files were pulled into the local tree. -/
def reloadMsg : String :=
  "Sync complete, but some files were pulled from Google Drive, so you should reload Obsidian."

/-- Remote calls of the push engine of src/helpers/push.ts. -/
inductive Call
  | search (paths : List String)
  | batchDelete (ids : List String)
  | createFolder (name : String) (parent : Option String) (path : String)
  | uploadFile (name : String) (parent : Option String) (path : String)
  | updateFile (id : Option String) (path : String)
deriving DecidableEq, Repr

/-- Remote calls of the push engine of part_001.  The grouped delete there
takes ids looked up in the local index, so individual entries can be absent
(the JavaScript array then holds undefined). -/
inductive CallV2
  | searchConfig
  | batchDelete (ids : List (Option String))
  | createFolder (name : String) (parent : Option String) (path : String)
  | uploadFile (name : String) (parent : Option String) (path : String)
  | updateFile (id : Option String) (path : String)
  | updateData (id : Option String)
deriving DecidableEq, Repr

/-- Ways a push cycle stops before its commit point. -/
inductive Abort
  | fetch
  | delete
  | crash
deriving DecidableEq, Repr

/-- Terminal outcome of one push invocation. -/
inductive Outcome
  | noop
  | cancelled
  | errorFetch
  | errorDelete
  | crash
  | complete
  | completeReload
deriving DecidableEq, Repr

/-- Outcome corresponding to an abort. -/
def Abort.toOutcome : Abort → Outcome
  | Abort.fetch => Outcome.errorFetch
  | Abort.delete => Outcome.errorDelete
  | Abort.crash => Outcome.crash

/-- Result of one push invocation: the final plugin state, the trace of
remote calls issued, the notices shown to the user, and the outcome. -/
structure PushResult where
  state : PState
  calls : List Call
  notices : List String
  outcome : Outcome
deriving DecidableEq, Repr

/-- Oracle environment for src/helpers/push.ts: the silent pull result, the
remote database and transport flags backing idsFromPaths, the grouped
delete result, and per-path results of the create and update calls. -/
structure Env where
  pulledFiles : Bool
  searchFails : Bool
  db : List FileMeta
  batchDeleteOk : Bool
  createFolderId : String → Option String
  uploadFileId : String → Option String
  updateFileOk : String → Bool

/-- Paths of the pending delete operations, in log order. -/
def delOps (s : Settings) : List String :=
  (s.operations.filter (fun e => e.2 == Op.delete)).map Prod.fst

/-- Paths of the pending create operations, in log order. -/
def crOps (s : Settings) : List String :=
  (s.operations.filter (fun e => e.2 == Op.create)).map Prod.fst

/-- Paths of the pending modify operations, in log order. -/
def modOps (s : Settings) : List String :=
  (s.operations.filter (fun e => e.2 == Op.modify)).map Prod.fst

/-- Largest segment count among the pending folders, as in
Math.max(...folders.map(({ path }) => path.split("/").length)). -/
def maxFolderDepth (folders : List String) : Nat :=
  (folders.map pathDepth).foldl max 0

/-- Embedding of src/helpers/push.ts lines 54-60.  In JavaScript,
new Array(n).fill([]) places the SAME array object in every slot, so every
batches[i].push appends to one shared buffer; after the forEach, each of the
n slots denotes that same buffer holding all folders in iteration order.
The model renders the aliased slots by replicating the final shared buffer
(the foldl is the sequence of push calls). -/
def buildBatches (folders : List String) : List (List String) :=
  List.replicate (maxFolderDepth folders)
    (folders.foldl (fun buf f => buf ++ [f]) [])

/-- Modelled from the spec: foldersToBatches is imported from helpers/drive
by the part_001 push but the helper itself is not present under src.  Per
the spec, folders are grouped into depth-ordered batches where batch k
contains every pending folder whose path has exactly k path-separator
delimited segments. -/
def foldersToBatches (folders : List String) : List (List String) :=
  (List.range (maxFolderDepth folders)).map
    (fun i => folders.filter (fun p => pathDepth p == i + 1))

/-- Parent id of a path, resolved through a path-to-id object as in
folder.parent ? pathsToIds[folder.parent.path] : undefined. -/
def optParent (p2i : List (String × String)) (p : String) : Option String :=
  match parentPath p with
  | none => none
  | some pp => lookupA p2i pp

/-- Accumulator threaded through the create waves: current settings, the
local pathsToIds object, the call trace and the notices so far. -/
structure CAcc where
  s : Settings
  p2i : List (String × String)
  calls : List Call
  notices : List String

/-- One folder creation of src/helpers/push.ts lines 64-80: issue the
create; on failure show a notice and continue; on success record the id in
the index and in the local pathsToIds object. -/
def folderStep (env : Env) (a : CAcc) (fp : String) : CAcc :=
  let c := Call.createFolder (baseName fp) (optParent a.p2i fp) fp
  match env.createFolderId fp with
  | none => { a with calls := a.calls ++ [c], notices := a.notices ++ [folderErrMsg] }
  | some id =>
    { s := { a.s with driveIdToPath := setA a.s.driveIdToPath id fp },
      p2i := setA a.p2i fp id,
      calls := a.calls ++ [c],
      notices := a.notices }

/-- One file upload of src/helpers/push.ts lines 87-103: issue the upload;
on failure show a notice and continue; on success record the id in the index
(the local pathsToIds object is not updated for files). -/
def noteStep (env : Env) (a : CAcc) (fp : String) : CAcc :=
  let c := Call.uploadFile (baseName fp) (optParent a.p2i fp) fp
  match env.uploadFileId fp with
  | none => { a with calls := a.calls ++ [c], notices := a.notices ++ [createErrMsg] }
  | some id =>
    { a with
      s := { a.s with driveIdToPath := setA a.s.driveIdToPath id fp },
      calls := a.calls ++ [c] }

/-- Delete phase of src/helpers/push.ts lines 20-36: resolve the pending
delete paths through idsFromPaths; abort the cycle on search failure; when
any ids came back, issue one grouped delete, abort on its failure, and on
success remove each returned id from the index. -/
def phaseDeletes (env : Env) (s : Settings) (dels : List String) :
    Except (List Call × List String × Abort) (Settings × List Call) :=
  match dels with
  | [] => Except.ok (s, [])
  | d :: ds =>
    match idsFromPaths env.db env.searchFails (d :: ds) with
    | none => Except.error ([Call.search (d :: ds)], [fetchErrMsg], Abort.fetch)
    | some ids =>
      match ids with
      | [] => Except.ok (s, [Call.search (d :: ds)])
      | _ :: _ =>
        if env.batchDeleteOk then
          Except.ok
            ({ s with
                driveIdToPath := s.driveIdToPath.filter
                  (fun e => !((ids.map Prod.fst).contains e.1)) },
              [Call.search (d :: ds), Call.batchDelete (ids.map Prod.fst)])
        else
          Except.error
            ([Call.search (d :: ds), Call.batchDelete (ids.map Prod.fst)],
              [deleteErrMsg], Abort.delete)

/-- Create phase of src/helpers/push.ts lines 38-105: split the pending
create paths into folders and files by vault kind; process the folder
batches (built with the aliased-array construction) and then the file
uploads.  When there are pending creates but none is a folder, the source
evaluates new Array(Math.max()) = new Array(-Infinity), which throws a
RangeError: modelled as a crash abort before any create call. -/
def phaseCreates (env : Env) (vault : Vault) (s : Settings)
    (crs : List String) :
    Except (List Call × List String × Abort) (Settings × List Call × List String) :=
  match crs with
  | [] => Except.ok (s, [], [])
  | c :: cs =>
    let p2i := invert s.driveIdToPath
    let folders := (c :: cs).filter (fun p => vault p == some VKind.folder)
    let notes := (c :: cs).filter (fun p => vault p == some VKind.file)
    match folders with
    | [] => Except.error ([], [], Abort.crash)
    | f :: fs =>
      let a1 := (buildBatches (f :: fs)).foldl
        (fun a batch => batch.foldl (folderStep env) a)
        { s := s, p2i := p2i, calls := [], notices := [] }
      let a2 := notes.foldl (noteStep env) a1
      Except.ok (a2.s, a2.calls, a2.notices)

/-- Modify phase of src/helpers/push.ts lines 107-133: for each pending
modify that is a vault file, issue a content update with the id looked up in
the freshly inverted index; a failed update only adds a notice and changes
no state. -/
def phaseModifies (env : Env) (vault : Vault) (s : Settings)
    (mods : List String) : List Call × List String :=
  match mods with
  | [] => ([], [])
  | _ :: _ =>
    let files := mods.filter (fun p => vault p == some VKind.file)
    let p2i := invert s.driveIdToPath
    files.foldl
      (fun a p =>
        (a.1 ++ [Call.updateFile (lookupA p2i p) p],
          if env.updateFileOk p then a.2 else a.2 ++ [modifyErrMsg]))
      ([], [])

/-- push of src/helpers/push.ts: single-flight guard, silent pull, phase
sequence, unconditional clearing of the operation log at the end, and the
terminal notice that depends on whether the pull brought files down. -/
def pushV1 (env : Env) (vault : Vault) (st : PState) : PushResult :=
  if st.syncing then
    { state := st, calls := [], notices := [], outcome := Outcome.noop }
  else
    let s0 := st.settings
    match phaseDeletes env s0 (delOps s0) with
    | Except.error (tr, ns, a) =>
      { state := { syncing := true, settings := s0 },
        calls := tr, notices := ns, outcome := a.toOutcome }
    | Except.ok (s1, tr1) =>
      match phaseCreates env vault s1 (crOps s0) with
      | Except.error (tr, ns, a) =>
        { state := { syncing := true, settings := s1 },
          calls := tr1 ++ tr, notices := ns, outcome := a.toOutcome }
      | Except.ok (s2, tr2, ns2) =>
        let m := phaseModifies env vault s2 (modOps s0)
        { state := { syncing := false, settings := { s2 with operations := [] } },
          calls := tr1 ++ tr2 ++ m.1,
          notices := ns2 ++ m.2 ++
            [if env.pulledFiles then reloadMsg else completeMsg],
          outcome := if env.pulledFiles then Outcome.completeReload
            else Outcome.complete }

end PushEngine

section PushEngineV2

/-- Result of one invocation of the part_001 push. -/
structure PushResultV2 where
  state : PState
  calls : List CallV2
  notices : List String
  outcome : Outcome
deriving DecidableEq, Repr

/-- Oracle environment for the part_001 push: the confirmation dialog
answer, the silent pull result (which that version discards), the result of
the config=true search, local existence checks, the grouped delete result,
per-path create and update results, and the config paths to synchronize
(getConfigFilesToSync is not present under src; modelled from the spec as
the externally computed set of configuration paths that should exist
remotely), plus the vault config directory. -/
structure EnvV2 where
  confirmed : Bool
  pulledFiles : Bool
  configSearch : Option (List FileMeta)
  localExists : String → Bool
  batchDeleteOk : Bool
  createFolderId : String → Option String
  uploadFileId : String → Option String
  updateFileOk : String → Bool
  configFilesToSync : List String
  configDir : String

/-- Accumulator threaded through the part_001 phases. -/
structure CAccV2 where
  s : Settings
  p2i : List (String × String)
  calls : List CallV2
  notices : List String

/-- One folder creation of part_001 lines 315-337 (also reused for the
config folder creations of lines 424-444, whose parent lookup through the
joined parent segments agrees with optParent because the path-to-id object
never holds an empty-string key). -/
def folderStepV2 (env : EnvV2) (a : CAccV2) (fp : String) : CAccV2 :=
  let c := CallV2.createFolder (baseName fp) (optParent a.p2i fp) fp
  match env.createFolderId fp with
  | none => { a with calls := a.calls ++ [c], notices := a.notices ++ [folderErrMsg] }
  | some id =>
    { s := { a.s with driveIdToPath := setA a.s.driveIdToPath id fp },
      p2i := setA a.p2i fp id,
      calls := a.calls ++ [c],
      notices := a.notices }

/-- One file upload of part_001 lines 344-368. -/
def noteStepV2 (env : EnvV2) (a : CAccV2) (fp : String) : CAccV2 :=
  let c := CallV2.uploadFile (baseName fp) (optParent a.p2i fp) fp
  match env.uploadFileId fp with
  | none => { a with calls := a.calls ++ [c], notices := a.notices ++ [createErrMsg] }
  | some id =>
    { a with
      s := { a.s with driveIdToPath := setA a.s.driveIdToPath id fp },
      calls := a.calls ++ [c] }

/-- Joined parent segments of a path, as in
path.split("/").slice(0, -1).join("/"); empty for a top-level path. -/
def parentKey (p : String) : String :=
  String.intercalate "/" (pathSegs p).dropLast

/-- Proper ancestor prefixes of a config path, as collected into the
foldersToCreate set by part_001 lines 409-414. -/
def ancestorPaths (p : String) : List String :=
  (List.range ((pathSegs p).length - 1)).map
    (fun i => String.intercalate "/" ((pathSegs p).take (i + 1)))

/-- Helper for insertion-order deduplication. -/
def dedupFirstGo : List String → List String → List String
  | [], _ => []
  | x :: xs, seen =>
    if seen.contains x then dedupFirstGo xs seen
    else x :: dedupFirstGo xs (x :: seen)

/-- Insertion-order deduplication, modelling the JavaScript Set the config
folder paths are collected into. -/
def dedupFirst (l : List String) : List String :=
  dedupFirstGo l []

/-- One config file synchronization of part_001 lines 447-476: an already
indexed path gets a content update whose result is ignored; an unindexed
path gets an upload whose failure shows a notice and whose success records
the new id. -/
def configFileStep (env : EnvV2) (a : CAccV2) (p : String) : CAccV2 :=
  match lookupA a.p2i p with
  | some id => { a with calls := a.calls ++ [CallV2.updateFile (some id) p] }
  | none =>
    let c := CallV2.uploadFile (baseName p) (lookupA a.p2i (parentKey p)) p
    match env.uploadFileId p with
    | none => { a with calls := a.calls ++ [c], notices := a.notices ++ [configErrMsg] }
    | some id =>
      { s := { a.s with driveIdToPath := setA a.s.driveIdToPath id p },
        p2i := setA a.p2i p id,
        calls := a.calls ++ [c],
        notices := a.notices }

/-- Continuation of the part_001 push after the delete phase: the create
and modify phases, the config subtree synchronization, the settings
snapshot update, the commit of the empty operation log, and the terminal
notice.  The first settings argument is the pre-cycle settings the
operation lists were read from; the second is the post-delete settings. -/
def pushV2Rest (env : EnvV2) (vault : Vault) (s0 s1 : Settings)
    (p2i0 : List (String × String)) (tr1 : List CallV2) : PushResultV2 :=
  let a0 : CAccV2 := { s := s1, p2i := p2i0, calls := tr1, notices := [] }
  let a1 :=
    match crOps s0 with
    | [] => a0
    | c :: cs =>
      let folders := (c :: cs).filter (fun p => vault p == some VKind.folder)
      let af :=
        match folders with
        | [] => a0
        | f :: fs =>
          (foldersToBatches (f :: fs)).foldl
            (fun a batch => batch.foldl (folderStepV2 env) a) a0
      ((c :: cs).filter (fun p => vault p == some VKind.file)).foldl
        (noteStepV2 env) af
  let a2 :=
    match modOps s0 with
    | [] => a1
    | _ :: _ =>
      let files := (modOps s0).filter (fun p => vault p == some VKind.file)
      let p2im := invert a1.s.driveIdToPath
      files.foldl
        (fun a p =>
          { a with
            calls := a.calls ++ [CallV2.updateFile (lookupA p2im p) p],
            notices := if env.updateFileOk p then a.notices
              else a.notices ++ [modifyErrMsg] })
        a1
  let fTC := (dedupFirst (env.configFilesToSync.flatMap ancestorPaths)).filter
    (fun f => (lookupA a2.p2i f).isNone)
  let a3 :=
    match fTC with
    | [] => a2
    | f :: fs =>
      (foldersToBatches (f :: fs)).foldl
        (fun a batch => batch.foldl (folderStepV2 env) a) a2
  let a4 := env.configFilesToSync.foldl (configFileStep env) a3
  let dataPath := env.configDir ++ "/plugins/google-drive-sync/data.json"
  let a5 := { a4 with
    calls := a4.calls ++ [CallV2.updateData (lookupA a4.p2i dataPath)] }
  { state := { syncing := false, settings := { a5.s with operations := [] } },
    calls := a5.calls,
    notices := a5.notices ++ [completeMsg],
    outcome := Outcome.complete }

/-- push of part_001 lines 243-489: single-flight guard, confirmation
modal, silent pull whose result is discarded, config=true search, delete
list augmented with config files missing locally, grouped delete through
ids looked up in the local index followed by index removal keyed by PATH,
create and modify phases, config subtree synchronization, settings
snapshot update, unconditional clearing of the operation log, and the
unconditional terminal success notice. -/
def pushV2 (env : EnvV2) (vault : Vault) (st : PState) : PushResultV2 :=
  if st.syncing then
    { state := st, calls := [], notices := [], outcome := Outcome.noop }
  else if !env.confirmed then
    { state := st, calls := [], notices := [], outcome := Outcome.cancelled }
  else
    let s0 := st.settings
    let p2i0 := invert s0.driveIdToPath
    match env.configSearch with
    | none =>
      { state := { syncing := true, settings := s0 },
        calls := [CallV2.searchConfig], notices := [fetchErrMsg],
        outcome := Outcome.errorFetch }
    | some cfg =>
      let dels := delOps s0 ++
        (cfg.filter (fun f => !env.localExists f.pathProp)).map
          (fun f => f.pathProp)
      let delIds := dels.map (fun p => lookupA p2i0 p)
      match dels with
      | _ :: _ =>
        if env.batchDeleteOk then
          pushV2Rest env vault s0
            { s0 with
              driveIdToPath := s0.driveIdToPath.filter
                (fun e => !dels.contains e.1) }
            p2i0 [CallV2.searchConfig, CallV2.batchDelete delIds]
        else
          { state := { syncing := true, settings := s0 },
            calls := [CallV2.searchConfig, CallV2.batchDelete delIds],
            notices := [deleteErrMsg], outcome := Outcome.errorDelete }
      | [] => pushV2Rest env vault s0 s0 p2i0 [CallV2.searchConfig]

end PushEngineV2

section Fixtures

/-- Vault with no entries. -/
def vaultEmpty : Vault := fun _ => none

/-- Vault for the modify scenarios: two files m1 and m2. -/
def vaultC1 : Vault :=
  fun p => if p == "m1" || p == "m2" then some VKind.file else none

/-- State with two pending modifies whose files are indexed. -/
def stC1 : PState :=
  { syncing := false,
    settings :=
      { operations := [("m1", Op.modify), ("m2", Op.modify)],
        driveIdToPath := [("g1", "m1"), ("g2", "m2")] } }

/-- Environment in which exactly the update of m1 fails. -/
def envC1 : Env :=
  { pulledFiles := false, searchFails := false, db := [],
    batchDeleteOk := true,
    createFolderId := fun _ => none, uploadFileId := fun _ => none,
    updateFileOk := fun p => p == "m2" }

/-- Remote file a with id idA, the only remote counterpart in the partial
delete-resolution scenario. -/
def fA : FileMeta := { id := "idA", pathProp := "a", obsidianProp := none, trashed := false }

/-- State with two pending deletes a and b. -/
def stC2x : PState :=
  { syncing := false,
    settings :=
      { operations := [("a", Op.delete), ("b", Op.delete)],
        driveIdToPath := [("idA", "a")] } }

/-- Environment in which the search succeeds but only a resolves. -/
def envC2x : Env :=
  { pulledFiles := false, searchFails := false, db := [fA],
    batchDeleteOk := true,
    createFolderId := fun _ => none, uploadFileId := fun _ => none,
    updateFileOk := fun _ => true }

/-- State with one pending delete x. -/
def stC2w : PState :=
  { syncing := false,
    settings := { operations := [("x", Op.delete)], driveIdToPath := [] } }

/-- Environment whose remote search fails as a whole. -/
def envC2w : Env :=
  { pulledFiles := false, searchFails := true, db := [],
    batchDeleteOk := true,
    createFolderId := fun _ => none, uploadFileId := fun _ => none,
    updateFileOk := fun _ => true }

/-- State of the concrete delete scenario of the spec: old.md pending
delete, indexed under id1. -/
def stC4 : PState :=
  { syncing := false,
    settings :=
      { operations := [("old.md", Op.delete)],
        driveIdToPath := [("id1", "old.md")] } }

/-- part_001 environment for the delete scenario: confirmed, empty config
listing, successful grouped delete. -/
def envC4v2 : EnvV2 :=
  { confirmed := true, pulledFiles := false, configSearch := some [],
    localExists := fun _ => true, batchDeleteOk := true,
    createFolderId := fun _ => none, uploadFileId := fun _ => none,
    updateFileOk := fun _ => true, configFilesToSync := [],
    configDir := ".obsidian" }

/-- helpers/push.ts environment for the same delete scenario: old.md
resolves remotely to id1 and the grouped delete succeeds. -/
def envC4v1 : Env :=
  { pulledFiles := false, searchFails := false,
    db := [{ id := "id1", pathProp := "old.md", obsidianProp := none, trashed := false }],
    batchDeleteOk := true,
    createFolderId := fun _ => none, uploadFileId := fun _ => none,
    updateFileOk := fun _ => true }

/-- State with an empty operation log. -/
def stC6 : PState :=
  { syncing := false, settings := { operations := [], driveIdToPath := [] } }

/-- part_001 environment in which the silent pull reports pulled files. -/
def envC6v2 : EnvV2 :=
  { confirmed := true, pulledFiles := true, configSearch := some [],
    localExists := fun _ => true, batchDeleteOk := true,
    createFolderId := fun _ => none, uploadFileId := fun _ => none,
    updateFileOk := fun _ => true, configFilesToSync := [],
    configDir := ".obsidian" }

/-- helpers/push.ts environment in which the silent pull reports pulled
files. -/
def envC6v1 : Env :=
  { pulledFiles := true, searchFails := false, db := [],
    batchDeleteOk := true,
    createFolderId := fun _ => none, uploadFileId := fun _ => none,
    updateFileOk := fun _ => true }

/-- State with a sync already in progress. -/
def stC7 : PState :=
  { syncing := true,
    settings := { operations := [("p", Op.create)], driveIdToPath := [("i", "p")] } }

/-- Files of the three-page listing. -/
def fM1 : FileMeta := { id := "f1", pathProp := "p1", obsidianProp := none, trashed := false }

/-- Second file of the three-page listing. -/
def fM2 : FileMeta := { id := "f2", pathProp := "p2", obsidianProp := none, trashed := false }

/-- Third file of the three-page listing. -/
def fM3 : FileMeta := { id := "f3", pathProp := "p3", obsidianProp := none, trashed := false }

/-- A remote listing served in three continuation pages. -/
def pages3 : List (List FileMeta) := [[fM1], [fM2], [fM3]]

/-- Transport oracle under which no page request fails. -/
def noPageFail : Nat → Bool := fun _ => false

/-- Match with a name predicate and a starred flag. -/
def mEx1 : QueryMatch :=
  { name := [StringSearch.exact "x"], starred := some true }

/-- Match with only a parent predicate. -/
def mEx2 : QueryMatch := { parent := some "p" }

/-- Root container already present remotely. -/
def fRoot : FileMeta :=
  { id := "root1", pathProp := "", obsidianProp := some "vault", trashed := false }

/-- Root environment in which the root exists but the folder POST fails. -/
def envRootX : EnvRoot :=
  { rootSearch := some [fRoot], createRootId := none,
    postFolderId := none, postUploadId := none }

/-- Root environment with no root container yet; creating it yields r1 and
the subsequent folder and upload POSTs succeed. -/
def envRootW : EnvRoot :=
  { rootSearch := some [], createRootId := some "r1",
    postFolderId := some "f1", postUploadId := some "u1" }

end Fixtures

/-- When no page request up from the current token fails, the accumulation
loop returns the accumulator followed by the remaining pages joined in
order. -/
theorem searchFrom_ok (pages : List (List FileMeta)) (failAt : Nat → Bool) :
    ∀ fuel tok acc, tok < pages.length → pages.length - tok ≤ fuel →
      (∀ i, tok ≤ i → i < pages.length → failAt i = false) →
      searchFrom pages failAt fuel tok acc =
        some (acc ++ (pages.drop tok).flatten) := by
  intro fuel
  induction fuel with
  | zero =>
    intro tok acc h1 h2 _
    omega
  | succ fuel ih =>
    intro tok acc h1 h2 hf
    have hft : failAt tok = false := hf tok le_rfl h1
    have hget : pageAt pages tok = some pages[tok] := by
      simp [pageAt, List.get?_eq_get h1]
    rw [searchFrom, hft, hget]
    simp only [Bool.false_eq_true, if_false]
    by_cases h3 : tok + 1 < pages.length
    · rw [if_pos h3]
      rw [ih (tok + 1) (acc ++ pages[tok]) h3 (by omega)
        (fun i hi1 hi2 => hf i (by omega) hi2)]
      rw [List.drop_eq_getElem_cons h1, List.flatten_cons, ← List.append_assoc]
    · rw [if_neg h3]
      rw [List.drop_eq_getElem_cons h1, List.drop_eq_nil_of_le (by omega),
        List.flatten_cons, List.flatten_nil, List.append_nil]

/-- When some page request at or after the current token fails, the
accumulation loop returns no result at all. -/
theorem searchFrom_fail (pages : List (List FileMeta)) (failAt : Nat → Bool) :
    ∀ fuel tok acc,
      (∃ i, tok ≤ i ∧ i < pages.length ∧ failAt i = true) →
      searchFrom pages failAt fuel tok acc = none := by
  intro fuel
  induction fuel with
  | zero => intro tok acc _; rfl
  | succ fuel ih =>
    intro tok acc h
    obtain ⟨i, hi1, hi2, hi3⟩ := h
    by_cases hft : failAt tok = true
    · rw [searchFrom, hft]
      simp
    · have hft' : failAt tok = false := by
        cases hex : failAt tok
        · rfl
        · exact absurd hex hft
      have htok : tok < pages.length := Nat.lt_of_le_of_lt hi1 hi2
      have hne : tok ≠ i := by
        intro hcon
        rw [hcon] at hft'
        rw [hft'] at hi3
        exact Bool.false_ne_true hi3
      have hlt : tok + 1 ≤ i := Nat.succ_le_of_lt (Nat.lt_of_le_of_ne hi1 hne)
      have h4 : tok + 1 < pages.length := Nat.lt_of_le_of_lt hlt hi2
      have hget : pageAt pages tok = some pages[tok] := by
        simp [pageAt, List.get?_eq_get htok]
      rw [searchFrom, hft', hget]
      simp only [Bool.false_eq_true, if_false]
      rw [if_pos h4]
      exact ih (tok + 1) (acc ++ pages[tok]) ⟨i, hlt, hi2, hi3⟩

/-- C5.  searchFiles follows the continuation token until it is exhausted:
when no page request fails it returns exactly the concatenation of all
pages in server order (the default variant additionally filters out the
root container, the only difference between the two call modes), and when
any page request fails it returns no result instead of a partial list. -/
theorem c5_search_concatenates_pages (pages : List (List FileMeta))
    (failAt : Nat → Bool) (h : pages ≠ []) :
    ((∀ i, i < pages.length → failAt i = false) →
      searchFilesP pages failAt true = some pages.flatten ∧
      searchFilesP pages failAt false = some (pages.flatten.filter notVaultRoot)) ∧
    ((∃ i, i < pages.length ∧ failAt i = true) →
      searchFilesP pages failAt true = none ∧
      searchFilesP pages failAt false = none) := by
  have hlen : 0 < pages.length := List.length_pos.mpr h
  constructor
  · intro hok
    have := searchFrom_ok pages failAt pages.length 0 [] hlen (by omega)
      (fun i _ hi2 => hok i hi2)
    rw [searchFilesP, searchFilesP, this]
    simp
  · intro hbad
    obtain ⟨i, hi1, hi2⟩ := hbad
    have := searchFrom_fail pages failAt pages.length 0 [] ⟨i, Nat.zero_le i, hi1, hi2⟩
    rw [searchFilesP, searchFilesP, this]
    exact ⟨rfl, rfl⟩

/-- Witness for C5 at a three-page listing with no transport failures. -/
theorem c5_search_concatenates_pages_witness :
    pages3 ≠ [] ∧ searchFilesP pages3 noPageFail true = some pages3.flatten :=
  ⟨by decide,
    ((c5_search_concatenates_pages pages3 noPageFail (by decide)).1
      (fun i _ => rfl)).1⟩

/-- C1, counterexample.  Two pending modifies, of which exactly the update
of m1 fails at the remote call: the claim predicts an operation log of
[(m1, modify)] after the cycle, but src/helpers/push.ts line 135 clears the
whole log unconditionally once the cycle reaches its end, so the log is
empty (the failure was only reported as a notice). -/
theorem c1_counterexample :
    envC1.updateFileOk "m1" = false ∧
    envC1.updateFileOk "m2" = true ∧
    (pushV1 envC1 vaultC1 stC1).calls =
      [Call.updateFile (some "g1") "m1", Call.updateFile (some "g2") "m2"] ∧
    (pushV1 envC1 vaultC1 stC1).notices = [modifyErrMsg, completeMsg] ∧
    (pushV1 envC1 vaultC1 stC1).state.settings.operations = [] ∧
    (pushV1 envC1 vaultC1 stC1).state.settings.operations ≠
      [("m1", Op.modify)] := by
  decide

/-- C1, amended.  Whenever the push cycle of src/helpers/push.ts reaches
its commit point (the delete phase and the create phase did not abort), the
entire operation log is cleared, including every entry whose remote action
failed; per-entry failures only produce notices.  Entries survive only when
the whole cycle aborts before the commit point. -/
theorem c1_log_cleared_on_commit (env : Env) (vault : Vault) (st : PState)
    (s1 s2 : Settings) (tr1 tr2 : List Call) (ns2 : List String)
    (h0 : st.syncing = false)
    (h1 : phaseDeletes env st.settings (delOps st.settings) = Except.ok (s1, tr1))
    (h2 : phaseCreates env vault s1 (crOps st.settings) = Except.ok (s2, tr2, ns2)) :
    (pushV1 env vault st).state.settings.operations = [] ∧
    ((pushV1 env vault st).outcome = Outcome.complete ∨
      (pushV1 env vault st).outcome = Outcome.completeReload) := by
  rw [pushV1, h0]
  simp only [Bool.false_eq_true, if_false, h1, h2]
  cases env.pulledFiles <;> simp

/-- Witness for C1 at the two-modify scenario in which the update of m1
fails: the commit point is reached and the log is cleared. -/
theorem c1_log_cleared_on_commit_witness :
    stC1.syncing = false ∧
    (pushV1 envC1 vaultC1 stC1).state.settings.operations = [] :=
  ⟨rfl,
    (c1_log_cleared_on_commit envC1 vaultC1 stC1 stC1.settings stC1.settings
      [] [] [] rfl rfl rfl).1⟩

/-- C2, counterexample.  Two pending deletes a and b, where the remote
search succeeds but only a resolves to an id: the claim predicts zero
remote delete calls and untouched delete log entries, but the code issues
the grouped delete for the resolved subset and the cycle clears the log. -/
theorem c2_counterexample :
    idsFromPaths envC2x.db false ["a", "b"] = some [("idA", "a")] ∧
    (pushV1 envC2x vaultEmpty stC2x).calls =
      [Call.search ["a", "b"], Call.batchDelete ["idA"]] ∧
    (pushV1 envC2x vaultEmpty stC2x).state.settings.operations = [] ∧
    (pushV1 envC2x vaultEmpty stC2x).outcome = Outcome.complete := by
  decide

/-- C2, amended.  Only a failure of the remote search as a whole aborts the
delete phase: in that case zero remote delete calls are issued, the
settings (operation log and index) are left exactly as they were, and the
cycle stops with the fetch error notice.  A path that merely matches no
remote object is not treated as a failure (see the counterexample). -/
theorem c2_abort_only_on_search_failure (env : Env) (vault : Vault)
    (st : PState)
    (h0 : st.syncing = false)
    (h1 : env.searchFails = true)
    (h2 : delOps st.settings ≠ []) :
    pushV1 env vault st =
      { state := { syncing := true, settings := st.settings },
        calls := [Call.search (delOps st.settings)],
        notices := [fetchErrMsg],
        outcome := Outcome.errorFetch } := by
  obtain ⟨d, ds, hd⟩ := List.exists_cons_of_ne_nil h2
  rw [pushV1, h0]
  simp only [Bool.false_eq_true, if_false, hd, phaseDeletes, idsFromPaths,
    searchFlat, h1, if_pos, Option.map_none', Abort.toOutcome]

/-- Witness for C2 at a single pending delete with a failing search. -/
theorem c2_abort_only_on_search_failure_witness :
    delOps stC2w.settings ≠ [] ∧
    pushV1 envC2w vaultEmpty stC2w =
      { state := { syncing := true, settings := stC2w.settings },
        calls := [Call.search (delOps stC2w.settings)],
        notices := [fetchErrMsg],
        outcome := Outcome.errorFetch } :=
  ⟨by decide,
    c2_abort_only_on_search_failure envC2w vaultEmpty stC2w rfl rfl (by decide)⟩

/-- C3, evaluation at the failing input.  For pending folders a and a/b,
new Array(2).fill([]) shares one array across both slots, so the code
submits both folders in the first batch (and again in the second), instead
of the spec partition in which batch 1 is exactly [a] and batch 2 exactly
[a/b]; in particular the two-segment folder a/b is in the first submitted
wave, before a has completed. -/
theorem c3_shared_batch_eval :
    buildBatches ["a", "a/b"] = [["a", "a/b"], ["a", "a/b"]] ∧
    foldersToBatches ["a", "a/b"] = [["a"], ["a/b"]] ∧
    buildBatches ["a", "a/b"] ≠ foldersToBatches ["a", "a/b"] ∧
    "a/b" ∈ (buildBatches ["a", "a/b"]).headD [] := by
  decide

/-- C4, evaluation at the failing input.  With old.md pending delete and
indexed under id1, the part_001 push deletes the index entry keyed by the
PATH from the id-keyed map, so after the successful grouped delete the
index still contains id1; the helpers/push.ts version of the same function
removes the entry keyed by the id, as the claim states. -/
theorem c4_index_not_pruned_eval :
    (pushV2 envC4v2 vaultEmpty stC4).outcome = Outcome.complete ∧
    (pushV2 envC4v2 vaultEmpty stC4).state.settings.driveIdToPath =
      [("id1", "old.md")] ∧
    (pushV1 envC4v1 vaultEmpty stC4).outcome = Outcome.complete ∧
    (pushV1 envC4v1 vaultEmpty stC4).state.settings.driveIdToPath = [] := by
  decide

/-- C6, evaluation at the failing input.  When the silent pull reports that
files were pulled, the helpers/push.ts push ends with the reload notice,
but the part_001 push discards the pull result and always ends with the
plain success notice. -/
theorem c6_reload_notice_dropped_eval :
    envC6v2.pulledFiles = true ∧
    (pushV2 envC6v2 vaultEmpty stC6).outcome = Outcome.complete ∧
    (pushV2 envC6v2 vaultEmpty stC6).notices = [completeMsg] ∧
    ¬ reloadMsg ∈ (pushV2 envC6v2 vaultEmpty stC6).notices ∧
    envC6v1.pulledFiles = true ∧
    (pushV1 envC6v1 vaultEmpty stC6).outcome = Outcome.completeReload ∧
    (pushV1 envC6v1 vaultEmpty stC6).notices = [reloadMsg] := by
  decide

/-- C7.  While a sync cycle is in progress, both push versions return
immediately: no remote call is traced, no notice is shown, and the plugin
state (operation log, index, and every other settings field) is returned
unchanged. -/
theorem c7_single_flight_noop (env : Env) (env2 : EnvV2)
    (vault vault2 : Vault) (st : PState) (h : st.syncing = true) :
    pushV1 env vault st =
      { state := st, calls := [], notices := [], outcome := Outcome.noop } ∧
    pushV2 env2 vault2 st =
      { state := st, calls := [], notices := [], outcome := Outcome.noop } := by
  constructor
  · rw [pushV1, h]
    simp
  · rw [pushV2, h]
    simp

/-- Witness for C7 with a busy state carrying a non-empty log and index. -/
theorem c7_single_flight_noop_witness :
    stC7.syncing = true ∧
    pushV1 envC1 vaultEmpty stC7 =
      { state := stC7, calls := [], notices := [], outcome := Outcome.noop } ∧
    pushV2 envC4v2 vaultEmpty stC7 =
      { state := stC7, calls := [], notices := [], outcome := Outcome.noop } :=
  ⟨rfl,
    (c7_single_flight_noop envC1 envC4v2 vaultEmpty vaultEmpty stC7 rfl).1,
    (c7_single_flight_noop envC1 envC4v2 vaultEmpty vaultEmpty stC7 rfl).2⟩

/-- Handling the flattened entry list of one match yields exactly the
field-by-field clause list. -/
theorem entries_handled (m : QueryMatch) :
    (entriesOf m).map handleEntry = specFieldClauses m := by
  have hn : handleEntry ∘ QEntry.name = nameClause := funext (fun v => rfl)
  have hm : handleEntry ∘ QEntry.mimeType = mimeClause := funext (fun v => rfl)
  unfold entriesOf specFieldClauses
  cases m.parent <;> cases m.starred <;> cases m.query <;>
    cases m.properties <;> cases m.modifiedTime <;>
      simp [handleEntry, hn, hm]

/-- C8.  For every non-empty match list, the constructed remote query
string is the URI encoding of the OR-combination of the per-match clauses,
each of which is the AND-combination of the clauses of its defined fields,
the whole disjunction conjoined with the fixed trashed=false filter; the
second conjunct spells the result out on a two-match example. -/
theorem c8_query_structure (ms : List QueryMatch) (_h : ms ≠ []) :
    getQuery ms = encodeURIComponent
      ("(" ++ String.intercalate " or "
        (ms.map (fun m =>
          "(" ++ String.intercalate " and " (specFieldClauses m) ++ ")")) ++
        ") and trashed=false") ∧
    getQuery [mEx1, mEx2] = encodeURIComponent
      ("((name=\x27x\x27 and starred=true) or (\x27p\x27 in parents)) and trashed=false") := by
  constructor
  · have hmc : matchClause = fun m =>
        "(" ++ String.intercalate " and " (specFieldClauses m) ++ ")" :=
      funext (fun m => by rw [matchClause, entries_handled])
    rw [getQuery, rawQuery, hmc]
  · decide

/-- Witness for C8 at the single-match list holding mEx1. -/
theorem c8_query_structure_witness :
    [mEx1] ≠ ([] : List QueryMatch) ∧
    (getQuery [mEx1] = encodeURIComponent
      ("(" ++ String.intercalate " or "
        ([mEx1].map (fun m =>
          "(" ++ String.intercalate " and " (specFieldClauses m) ++ ")")) ++
        ") and trashed=false") ∧
    getQuery [mEx1, mEx2] = encodeURIComponent
      ("((name=\x27x\x27 and starred=true) or (\x27p\x27 in parents)) and trashed=false")) :=
  ⟨by decide, c8_query_structure [mEx1] (by decide)⟩

/-- C9.  idsFromPaths is absent exactly when the remote search fails as a
whole; with a successful search it always returns a list, and a requested
path with no remote counterpart simply does not occur among the returned
paths, so the result can be strictly shorter than the input without any
failure signal. -/
theorem c9_idsFromPaths_silent_omission (db : List FileMeta)
    (paths : List String) :
    idsFromPaths db true paths = none ∧
    (idsFromPaths db false paths).isSome = true ∧
    (∀ p l, p ∈ paths → (∀ f, f ∈ db → f.pathProp ≠ p) →
      idsFromPaths db false paths = some l → ¬ p ∈ l.map Prod.snd) := by
  refine ⟨rfl, rfl, ?_⟩
  intro p l hp hdb heq hmem
  simp only [idsFromPaths, searchFlat, Bool.false_eq_true, if_false,
    Option.map_some', Option.some.injEq] at heq
  rw [← heq] at hmem
  simp only [List.map_map, List.mem_map, List.mem_filter,
    Function.comp_apply] at hmem
  obtain ⟨f, ⟨⟨hfdb, _⟩, _⟩, hfp⟩ := hmem
  exact hdb f hfdb hfp

/-- Witness for C9: two requested paths, of which only a has a remote
counterpart; the call succeeds with a single-entry result omitting b. -/
theorem c9_idsFromPaths_silent_omission_witness :
    idsFromPaths [fA] false ["a", "b"] = some [("idA", "a")] ∧
    ("b" ∈ ["a", "b"] ∧ (∀ f, f ∈ [fA] → f.pathProp ≠ "b")) ∧
    ¬ "b" ∈ ([("idA", "a")].map Prod.snd) :=
  ⟨by decide, ⟨by decide, by decide⟩,
    (c9_idsFromPaths_silent_omission [fA] ["a", "b"]).2.2 "b" [("idA", "a")]
      (by decide) (by decide) (by decide)⟩

/-- C10, counterexample.  The root container exists, so root resolution
succeeds, yet createFolder with no parent still returns absent because the
folder POST itself fails; this refutes the claim that the call fails only
if root resolution fails. -/
theorem c10_counterexample :
    (getRootFolderId envRootX).1 = some "root1" ∧
    (createFolder envRootX "x" none).1 = none ∧
    (createFolder envRootX "x" none).2 =
      [DriveCall.searchRoot, DriveCall.postFolder "x" "root1"] := by
  decide

/-- C10, amended.  With no parent supplied, createFolder and uploadFile
resolve the vault root: the obsidian=vault search is issued and, when it
finds nothing, a root folder named Obsidian carrying that property is
created and its id returned.  When root resolution fails the call fails
without issuing the create or upload; when it succeeds the create or
upload is issued with the root id as parent, and only that request's own
failure can then make the call return absent. -/
theorem c10_root_resolution (env : EnvRoot) (name : String) :
    ((getRootFolderId env).1 = none →
      (createFolder env name none).1 = none ∧
      (createFolder env name none).2 = (getRootFolderId env).2 ∧
      (uploadFile env name none).1 = none ∧
      (uploadFile env name none).2 = (getRootFolderId env).2) ∧
    (∀ r, (getRootFolderId env).1 = some r →
      (createFolder env name none).2 =
        (getRootFolderId env).2 ++ [DriveCall.postFolder name r] ∧
      (createFolder env name none).1 = env.postFolderId ∧
      (uploadFile env name none).2 =
        (getRootFolderId env).2 ++ [DriveCall.postUpload name r] ∧
      (uploadFile env name none).1 = env.postUploadId) ∧
    (env.rootSearch = some [] →
      DriveCall.postRoot "Obsidian" [("obsidian", "vault")] ∈
        (getRootFolderId env).2 ∧
      (getRootFolderId env).1 = env.createRootId) := by
  rcases henv : env.rootSearch with _ | l
  · refine ⟨?_, ?_, ?_⟩
    · intro _
      simp [createFolder, uploadFile, getRootFolderId, henv]
    · intro r hr
      rw [getRootFolderId, henv] at hr
      exact absurd hr (by simp)
    · intro hcon
      exact absurd hcon (by simp)
  · cases l with
    | nil =>
      cases hcr : env.createRootId with
      | none =>
        refine ⟨?_, ?_, ?_⟩
        · intro _
          simp [createFolder, uploadFile, getRootFolderId, henv, hcr]
        · intro r hr
          rw [getRootFolderId, henv] at hr
          simp only [hcr] at hr
          exact absurd hr (by simp)
        · intro _
          simp [getRootFolderId, henv, hcr]
      | some rid =>
        refine ⟨?_, ?_, ?_⟩
        · intro hnone
          rw [getRootFolderId, henv] at hnone
          simp only [hcr] at hnone
          exact absurd hnone (by simp)
        · intro r hr
          rw [getRootFolderId, henv] at hr
          simp only [hcr, Option.some.injEq] at hr
          subst hr
          simp [createFolder, uploadFile, getRootFolderId, henv, hcr]
        · intro _
          simp [getRootFolderId, henv, hcr]
    | cons f fs =>
      refine ⟨?_, ?_, ?_⟩
      · intro hnone
        rw [getRootFolderId, henv] at hnone
        exact absurd hnone (by simp)
      · intro r hr
        rw [getRootFolderId, henv] at hr
        simp only [Option.some.injEq] at hr
        subst hr
        simp [createFolder, uploadFile, getRootFolderId, henv]
      · intro hcon
        exact absurd hcon (by simp)

/-- Witness for C10: with no root container yet, root resolution creates
the Obsidian root folder tagged obsidian=vault, and the subsequent folder
POST is issued with the new root id as parent. -/
theorem c10_root_resolution_witness :
    (getRootFolderId envRootW).1 = some "r1" ∧
    DriveCall.postRoot "Obsidian" [("obsidian", "vault")] ∈
      (getRootFolderId envRootW).2 ∧
    (createFolder envRootW "x" none).2 =
      (getRootFolderId envRootW).2 ++ [DriveCall.postFolder "x" "r1"] ∧
    (createFolder envRootW "x" none).1 = some "f1" :=
  ⟨rfl,
    ((c10_root_resolution envRootW "x").2.2 rfl).1,
    ((c10_root_resolution envRootW "x").2.1 "r1" rfl).1,
    ((c10_root_resolution envRootW "x").2.1 "r1" rfl).2.1⟩

end GDrive
